import Mathlib

/-!
Shallow embedding of the core of the ticatec node-common-library:
the transaction coordinator (CommonService.executeInTx / executeNonTx),
the predicate builder and pagination engine (CommonSearchCriteria),
the result materializer and SQL script loader (DBConnection), and the
numeric-parsing utilities (StringUtils.parseNumber).

JavaScript values relevant to the embedded code are modelled by `JSVal`
(undefined, null, NaN, integral numbers, strings, plain objects).  JS
numbers appearing in the library are integral (page numbers, row counts,
parseInt results), so they are modelled as `Int`, with `Option Int`
standing for a number-or-NaN result (`none` = NaN).  Fallible JS code
(statements that can throw) is modelled with `Except` / `Option`.
-/

set_option autoImplicit false

namespace NodeCommon

/-! ## JavaScript value model -/

/-- A JavaScript value as used by the library: `undefined`, `null`, `NaN`,
an integral number, a string, or a plain object (insertion-ordered fields). -/
inductive JSVal where
  | undef
  | null
  | nan
  | num (n : Int)
  | str (s : String)
  | obj (fields : List (String × JSVal))

/-- Property read `fields[k]`: first binding wins; `none` means the
property is absent (reads as `undefined` in JS). -/
def jsGet (fields : List (String × JSVal)) (k : String) : Option JSVal :=
  match fields with
  | [] => none
  | (k2, v) :: rest => if k2 = k then some v else jsGet rest k

/-- Property write `obj[k] = v`: updates the existing binding in place
(JS objects keep the original insertion position) or appends a new one. -/
def jsSet (fields : List (String × JSVal)) (k : String) (v : JSVal) :
    List (String × JSVal) :=
  match fields with
  | [] => [(k, v)]
  | (k2, w) :: rest => if k2 = k then (k2, v) :: rest else (k2, w) :: jsSet rest k v

/-- Model of `v != null` (JS loose inequality): false exactly for `null` and `undefined`. -/
def jsNonNull (v : JSVal) : Bool :=
  match v with
  | .null => false
  | .undef => false
  | _ => true

/-- ASCII whitespace recognised by JS `trim` / `\s` (space, tab, LF, VT, FF, CR);
library inputs are ASCII, so the Unicode space classes are not modelled. -/
def isJsSpace (c : Char) : Bool :=
  c = ' ' || c = '\t' || c = '\n' || c = '\r' || c = '\x0b' || c = '\x0c'

/-- JS `String.prototype.trim`. -/
def jsTrim (s : String) : String :=
  String.mk (((s.data.dropWhile isJsSpace).reverse.dropWhile isJsSpace).reverse)

/-- JS `s.replace(/c/g, r)` for a single-character pattern `c`: a global
regex replace with a one-character pattern replaces every occurrence. -/
def jsReplaceChar (s : String) (c : Char) (r : String) : String :=
  String.mk (s.data.foldr (fun x acc => if x = c then r.data ++ acc else x :: acc) [])

/-- Model of `ToString` applied to a `JSVal`, as JS `parseInt` does to a non-string
argument (`String(v)`). -/
def jsToString (v : JSVal) : String :=
  match v with
  | .undef => "undefined"
  | .null => "null"
  | .nan => "NaN"
  | .num n => toString n
  | .str s => s
  | .obj _ => "[object Object]"

/-! ## StringUtils (src/StringUtils.ts) -/

/-- Model of `StringUtils.isString`: `typeof s == "string"`. -/
def isString (s : JSVal) : Bool :=
  match s with
  | .str _ => true
  | _ => false

/-- Model of `StringUtils.isEmpty`: `s == null || (isString(s) && s.trim().length == 0)`. -/
def isEmpty (s : JSVal) : Bool :=
  match s with
  | .null => true
  | .undef => true
  | .str t => (jsTrim t).data.isEmpty
  | _ => false

def isHexDigit (c : Char) : Bool :=
  c.isDigit || ('a' ≤ c && c ≤ 'f') || ('A' ≤ c && c ≤ 'F')

def hexDigitVal (c : Char) : Nat :=
  if c.isDigit then c.toNat - '0'.toNat
  else if 'a' ≤ c && c ≤ 'f' then c.toNat - 'a'.toNat + 10
  else if 'A' ≤ c && c ≤ 'F' then c.toNat - 'A'.toNat + 10
  else 0

/-- Exponent part of a JS decimal literal: empty, or `e`/`E`, an optional
sign, and at least one digit. -/
def expOk (cs : List Char) : Bool :=
  match cs with
  | [] => true
  | c :: r =>
    (c = 'e' || c = 'E') &&
      (let r2 := match r with
        | '+' :: q => q
        | '-' :: q => q
        | q => q
      !r2.isEmpty && r2.all Char.isDigit)

/-- Unsigned JS decimal literal: `digits [. digits] [exp]` or `. digits [exp]`. -/
def mantissaOk (cs : List Char) : Bool :=
  let ip := cs.takeWhile Char.isDigit
  let r := cs.drop ip.length
  match r with
  | '.' :: frac =>
    let fp := frac.takeWhile Char.isDigit
    let r2 := frac.drop fp.length
    (!ip.isEmpty || !fp.isEmpty) && expOk r2
  | _ => !ip.isEmpty && expOk r

/-- Whether JS `Number(t)` yields a non-NaN value, i.e. `!isNaN(t)` for a
string `t`: after trimming, the empty string (value 0), `Infinity` with an
optional sign, a signed decimal literal, or an unsigned `0x`/`0o`/`0b`
radix literal. -/
def jsNumericString (t : String) : Bool :=
  let u := (jsTrim t).data
  if u.isEmpty then true
  else
    let body := match u with
      | '+' :: r => r
      | '-' :: r => r
      | r => r
    (body = "Infinity".data) || mantissaOk body ||
      (match u with
        | '0' :: x :: r =>
          ((x = 'x' || x = 'X') && !r.isEmpty && r.all isHexDigit) ||
          ((x = 'o' || x = 'O') && !r.isEmpty && r.all (fun c => '0' ≤ c && c ≤ '7')) ||
          ((x = 'b' || x = 'B') && !r.isEmpty && r.all (fun c => c = '0' || c = '1'))
        | _ => false)

/-- Model of `StringUtils.isNumber`: `isString(s) && !isNaN(s)`. -/
def isNumber (s : JSVal) : Bool :=
  match s with
  | .str t => jsNumericString t
  | _ => false

/-- JS `parseInt(t)` with no radix argument: trim, optional sign, optional
`0x`/`0X` prefix (hexadecimal), then the maximal run of digits of the
radix; no digits means NaN (`none`). -/
def jsParseInt (t : String) : Option Int :=
  let u := (jsTrim t).data
  let neg := match u with
    | '-' :: _ => true
    | _ => false
  let v := match u with
    | '+' :: r => r
    | '-' :: r => r
    | r => r
  let (radixDigits, isHex) := match v with
    | '0' :: 'x' :: r => (r, true)
    | '0' :: 'X' :: r => (r, true)
    | r => (r, false)
  let ds := if isHex then radixDigits.takeWhile isHexDigit
            else radixDigits.takeWhile Char.isDigit
  if ds.isEmpty then none
  else
    let base : Int := if isHex then 16 else 10
    let val : Int := ds.foldl (fun a c => a * base + Int.ofNat (hexDigitVal c)) 0
    some (if neg then -val else val)

/-- Model of `StringUtils.parseNumber`:
`typeof s == "number" ? s : isNumber(s) ? parseInt(s) : defValue`.
The result is a JS number, possibly NaN (`none`): a number (including NaN)
passes through, a string accepted by `isNumber` goes through `parseInt`,
anything else yields the default. -/
def parseNumber (s : JSVal) (defValue : Int) : Option Int :=
  match s with
  | .num n => some n
  | .nan => none
  | .str t => if jsNumericString t then jsParseInt t else some defValue
  | _ => some defValue

/-! ## Transaction coordinator (CommonService.executeInTx / executeNonTx)

One invocation is determined by the outcomes of the five connection-scoped
operations it may perform; `ConnBehavior` records each outcome
(`Except.error` = the operation throws/rejects).  The functions return the
propagated outcome together with the ordered trace of operations invoked
on the connection. -/

inductive DBOp where
  | beginTx
  | work
  | commit
  | rollback
  | close
  deriving DecidableEq, Repr

structure ConnBehavior (ε α : Type) where
  beginTx : Except ε Unit
  work : Except ε α
  commit : Except ε Unit
  rollback : Except ε Unit
  close : Except ε Unit

/-- Model of `executeInTx`:
`try { begin; r = work(conn); commit; return r } catch (ex) { rollback; throw ex } finally { close }`
with JS abrupt-completion semantics: an error thrown inside the `catch`
block (by `rollback`) replaces the original error, and an error thrown by
the `finally` block (by `close`) replaces whatever completion was pending. -/
def executeInTx {ε α : Type} (b : ConnBehavior ε α) : Except ε α × List DBOp :=
  let t : Except ε α × List DBOp :=
    match b.beginTx with
    | .error e => (.error e, [.beginTx])
    | .ok _ =>
      match b.work with
      | .error e => (.error e, [.beginTx, .work])
      | .ok v =>
        match b.commit with
        | .error e => (.error e, [.beginTx, .work, .commit])
        | .ok _ => (.ok v, [.beginTx, .work, .commit])
  let u : Except ε α × List DBOp :=
    match t.1 with
    | .ok v => (.ok v, t.2)
    | .error e =>
      match b.rollback with
      | .error e2 => (.error e2, t.2 ++ [.rollback])
      | .ok _ => (.error e, t.2 ++ [.rollback])
  match b.close with
  | .error e3 => (.error e3, u.2 ++ [.close])
  | .ok _ => (u.1, u.2 ++ [.close])

/-- Model of `executeNonTx`: `try { return work(conn) } finally { close }`. -/
def executeNonTx {ε α : Type} (b : ConnBehavior ε α) : Except ε α × List DBOp :=
  let t : Except ε α × List DBOp :=
    match b.work with
    | .error e => (.error e, [.work])
    | .ok v => (.ok v, [.work])
  match b.close with
  | .error e3 => (.error e3, t.2 ++ [.close])
  | .ok _ => (t.1, t.2 ++ [.close])

/-! ## Search criteria: predicate builder and pagination engine
(src/db/CommonSearchCriteria.ts, newer revision)

The mutable criteria object (`this.sql`, `this.orderBy`, `this.params`,
`this.page`, `this.rows`) is modelled by explicit state passing on
`Criteria`.  The driver adapter behind `DBConnection` is modelled by the
oracle `DBEnv` (what `find` and `listQuery` return for a given SQL text
and parameter list).  None of the builder operations can throw in the
source (string concatenation, `Array.push`, `includes`, `replace` only),
so they are total functions here. -/

structure Criteria where
  sql : String
  orderBy : String
  params : List JSVal
  page : Int
  rows : Int

/-- Model of `CommonSearchCriteria.isNotEmpty`:
`StringUtils.isString(s) ? !StringUtils.isEmpty(s) : s != null`. -/
def isNotEmpty (s : JSVal) : Bool :=
  if isString s then !isEmpty s else jsNonNull s

/-- Model of `escapePercentage`: `s.replace(/%/g, "\\%")`. -/
def escapePercentage (s : String) : String :=
  jsReplaceChar s '%' "\\%"

/-- Model of `includeStar`: `s.includes("*")`. -/
def includeStar (s : String) : Bool :=
  s.data.contains '*'

/-- Model of `toWildSQL`: `s.replace(/\*/g, "%")`. -/
def toWildSQL (s : String) : String :=
  jsReplaceChar s '*' "%"

/-- Model of `replaceWildStar`: `s.replace(/%/g, "\\%").replace(/\*/g, "%")`. -/
def replaceWildStar (s : String) : String :=
  jsReplaceChar (jsReplaceChar s '%' "\\%") '*' "%"

/-- Model of `buildCriteria(value, field)`: with `idx = params.length + 1`, a
non-empty value appends `and field = $idx` and pushes the value; returns
the next free index. -/
def buildCriteria (value : JSVal) (field : String) (c : Criteria) : Criteria × Nat :=
  let idx := c.params.length + 1
  if isNotEmpty value then
    ({ c with
        sql := c.sql ++ " and " ++ field ++ " = $" ++ toString idx,
        params := c.params ++ [value] }, idx + 1)
  else (c, idx)

/-- Model of `buildStarCriteria(text, field)`: a non-empty text containing `*`
appends a LIKE clause binding `replaceWildStar(text)`; a non-empty text
without `*` appends an equality clause binding the text itself. -/
def buildStarCriteria (text : String) (field : String) (c : Criteria) : Criteria × Nat :=
  let idx := c.params.length + 1
  if isNotEmpty (.str text) then
    if includeStar text then
      ({ c with
          sql := c.sql ++ " and " ++ field ++ " like $" ++ toString idx,
          params := c.params ++ [.str (replaceWildStar text)] }, idx + 1)
    else
      ({ c with
          sql := c.sql ++ " and " ++ field ++ " = $" ++ toString idx,
          params := c.params ++ [.str text] }, idx + 1)
  else (c, idx)

/-- Model of `buildRangeCriteria(fromValue, toValue, field)`: with
`idx = params.length + 1`, a non-empty lower bound appends
`and field >= $idx` (inclusive), then a non-empty upper bound appends
`and field < $idx` (exclusive) at the next index. -/
def buildRangeCriteria (fromValue toValue : JSVal) (field : String) (c : Criteria) :
    Criteria × Nat :=
  let idx := c.params.length + 1
  let (c1, idx1) :=
    if isNotEmpty fromValue then
      ({ c with
          sql := c.sql ++ " and " ++ field ++ " >= $" ++ toString idx,
          params := c.params ++ [fromValue] }, idx + 1)
    else (c, idx)
  if isNotEmpty toValue then
    ({ c1 with
        sql := c1.sql ++ " and " ++ field ++ " < $" ++ toString idx1,
        params := c1.params ++ [toValue] }, idx1 + 1)
  else (c1, idx1)

/-- The base-class `buildDynamicQuery`: an empty body, so the criteria
state is unchanged (subclasses may override it; the override is modelled
by the `hook` parameter of `paginationQuery`). -/
def buildDynamicQuery : Criteria → Criteria :=
  fun c => c

/-- Driver-adapter oracle: what `conn.find` returns (a first row, or null)
and what `conn.listQuery` returns (the materialized row objects), per SQL
text and bound parameter list. -/
structure DBEnv where
  findResult : String → List JSVal → Option (List (String × JSVal))
  listResult : String → List JSVal → List JSVal

/-- The count query text: `select count(*) as cc from (${sql}) a`. -/
def countSQLOf (sql : String) : String :=
  "select count(*) as cc from (" ++ sql ++ ") a"

/-- Model of `CommonSearchCriteria.queryCount`:
`result == null ? 0 : parseInt(result["cc"])`.  A null row yields 0; a
row without a usable `cc` column yields NaN (`none`). -/
def queryCount (env : DBEnv) (sql : String) (params : List JSVal) : Option Int :=
  match env.findResult (countSQLOf sql) params with
  | none => some 0
  | some row => jsParseInt (jsToString ((jsGet row "cc").getD .undef))

/-- Model of `DBConnection.getRowSetLimitClause`: `` ` limit ${rowCount} offset ${offset}` ``. -/
def getRowSetLimitClause (rowCount offset : Int) : String :=
  " limit " ++ toString rowCount ++ " offset " ++ toString offset

/-- The result object `{count, hasMore, list, pages}` of one pagination
call.  `count`/`pages` are JS numbers (`none` = NaN). -/
structure PagList where
  count : Option Int
  hasMore : Bool
  list : List JSVal
  pages : Option Int

/-- Outcome of one `paginationQuery` invocation: the returned result, the
criteria state after the call, and the SQL texts issued to the driver in
order. -/
structure PagOutcome where
  result : PagList
  crit : Criteria
  queries : List String

/-- Model of `CommonSearchCriteria.paginationQuery(conn)`: invoke
`this.buildDynamicQuery()` (the overridable hook) once, run the count
query, and if `count > 0` compute `offset = (page - 1) * rows`, fetch the
page only when `count > offset`, and derive
`hasMore = offset + rows < count` and
`pages = Math.floor((count - 1) / rows) + 1` (`Int.fdiv` is floor
division; a page size of 0, whose JS quotient is infinite, is outside
this integral model).  Otherwise return `{count, false, [], 0}`. -/
def paginationQuery (hook : Criteria → Criteria) (env : DBEnv) (c0 : Criteria) :
    PagOutcome :=
  let c := hook c0
  match queryCount env c.sql c.params with
  | some n =>
    if 0 < n then
      let offset := (c.page - 1) * c.rows
      let listSQL := c.sql ++ " " ++ c.orderBy ++ " " ++
        getRowSetLimitClause c.rows offset ++ " "
      let pages := some ((n - 1).fdiv c.rows + 1)
      let hasMore := decide (offset + c.rows < n)
      if offset < n then
        { result := { count := some n, hasMore := hasMore,
                      list := env.listResult listSQL c.params, pages := pages },
          crit := c,
          queries := [countSQLOf c.sql, listSQL] }
      else
        { result := { count := some n, hasMore := hasMore, list := [], pages := pages },
          crit := c,
          queries := [countSQLOf c.sql] }
    else
      { result := { count := some n, hasMore := false, list := [], pages := some 0 },
        crit := c,
        queries := [countSQLOf c.sql] }
  | none =>
    { result := { count := none, hasMore := false, list := [], pages := some 0 },
      crit := c,
      queries := [countSQLOf c.sql] }

/-- The constructor `CommonSearchCriteria(criteria?)`:
`this.page = parseNumber(criteria?.page, 1)` and
`this.rows = parseNumber(criteria?.rows, 25)`; optional chaining on a
nullish criteria reads `undefined`. -/
def optChain (v : JSVal) (k : String) : JSVal :=
  match v with
  | .obj fields => (jsGet fields k).getD .undef
  | _ => .undef

def mkCriteria (criteria : JSVal) : Option Int × Option Int :=
  (parseNumber (optChain criteria "page") 1, parseNumber (optChain criteria "rows") 25)

/-! ## Builder-call sequences (for the parameter-alignment invariant)

A `BuilderCall` is one invocation of a builder method; `callClauses`
lists, per call, one `(field, operator-fragment, value)` triple for each
parameter the call pushes, and `renderClauses` rebuilds the SQL text the
calls append, numbering placeholders consecutively from a starting
parameter count. -/

inductive BuilderCall where
  | crit (value : JSVal) (field : String)
  | star (text : String) (field : String)
  | range (fromValue toValue : JSVal) (field : String)

def applyCall (k : BuilderCall) (c : Criteria) : Criteria :=
  match k with
  | .crit v f => (buildCriteria v f c).1
  | .star t f => (buildStarCriteria t f c).1
  | .range a b f => (buildRangeCriteria a b f c).1

def applyCalls (ks : List BuilderCall) (c : Criteria) : Criteria :=
  ks.foldl (fun c k => applyCall k c) c

/-- The clause triples (field, operator fragment, pushed value) of one call. -/
def callClauses (k : BuilderCall) : List (String × String × JSVal) :=
  match k with
  | .crit v f => if isNotEmpty v then [(f, " = $", v)] else []
  | .star t f =>
    if isNotEmpty (.str t) then
      if includeStar t then [(f, " like $", .str (replaceWildStar t))]
      else [(f, " = $", .str t)]
    else []
  | .range a b f =>
    (if isNotEmpty a then [(f, " >= $", a)] else []) ++
    (if isNotEmpty b then [(f, " < $", b)] else [])

def callsClauses (ks : List BuilderCall) : List (String × String × JSVal) :=
  match ks with
  | [] => []
  | k :: r => callClauses k ++ callsClauses r

/-- Render a clause list starting after `n` existing parameters: the k-th
clause (1-based) gets the placeholder `$(n+k)`, exactly matching the
position of its value in the final parameter list. -/
def renderClauses (n : Nat) (l : List (String × String × JSVal)) : String :=
  match l with
  | [] => ""
  | e :: r => " and " ++ e.1 ++ e.2.1 ++ toString (n + 1) ++ renderClauses (n + 1) r

/-! ## Result materializer (DBConnection.toCamel / setNestObj / resultToList) -/

/-- JS `\w`: ASCII letter, digit or underscore. -/
def isWordChar (c : Char) : Bool :=
  c.isAlphanum || c = '_'

/-- Scanner for `name.replace(/\_(\w)/g, (all, letter) => letter.toUpperCase())`:
an underscore followed by a word character is replaced by the uppercased
word character; scanning resumes after the match. -/
def toCamelAux (cs : List Char) : List Char :=
  match cs with
  | [] => []
  | ['_'] => ['_']
  | '_' :: c :: r2 =>
    if isWordChar c then c.toUpper :: toCamelAux r2
    else '_' :: toCamelAux (c :: r2)
  | c :: rest => c :: toCamelAux rest

/-- Model of `DBConnection.toCamel`. -/
def toCamel (name : String) : String :=
  String.mk (toCamelAux name.data)

/-- JS `s.split(c)` for a one-character separator. -/
def splitOnChar (s : String) (c : Char) : List String :=
  (s.data.foldr
    (fun ch acc =>
      if ch = c then [] :: acc
      else match acc with
        | h :: t => (ch :: h) :: t
        | [] => [[ch]])
    [[]]).map String.mk

/-- The loop body of `setNestObj` after the null check: walk the
camelized, dot-separated attribute chain, creating `{}` for a missing or
nullish intermediate (`nestObj[attr] = nestObj[attr] ?? {}`), and assign
the value at the last attribute.  A non-object, non-nullish intermediate
follows JS semantics: a final-position assignment onto a primitive is
silently lost, while descending two or more levels through a primitive
reads `undefined` and then throws a TypeError (`none`). -/
def setNest (fields : List (String × JSVal)) (attrs : List String) (v : JSVal) :
    Option (List (String × JSVal)) :=
  match attrs with
  | [] => some fields
  | [a] => some (jsSet fields (toCamel a) v)
  | a :: rest =>
    let a2 := toCamel a
    match jsGet fields a2 with
    | some (.obj sub) => (setNest sub rest v).map (fun s2 => jsSet fields a2 (.obj s2))
    | some .null => (setNest [] rest v).map (fun s2 => jsSet fields a2 (.obj s2))
    | some .undef => (setNest [] rest v).map (fun s2 => jsSet fields a2 (.obj s2))
    | none => (setNest [] rest v).map (fun s2 => jsSet fields a2 (.obj s2))
    | some _ =>
      match rest with
      | [_] => some fields
      | _ => none

/-- Model of `DBConnection.setNestObj(obj, field, value)`: only a non-nullish
value is assigned; a null or undefined column value leaves the object
untouched (the attribute stays absent). -/
def setNestObj (obj : List (String × JSVal)) (field : String) (value : JSVal) :
    Option (List (String × JSVal)) :=
  if jsNonNull value then setNest obj (splitOnChar field '.') value
  else some obj

/-- Column read `row[key]`: an absent column reads as `undefined`. -/
def rowGet (row : List (String × JSVal)) (k : String) : JSVal :=
  ((jsGet row k).getD .undef : JSVal)

/-- The per-row loop of `DBConnection.resultToList`:
`fields.forEach((value, key) => this.setNestObj(obj, value, row[key]))`
starting from `{}`, where `mapping` lists the field-map
`(key = column, value = target path)` entries in insertion order. -/
def rowToObj (mapping : List (String × String)) (row : List (String × JSVal)) :
    Option (List (String × JSVal)) :=
  mapping.foldl
    (fun acc kv => acc.bind (fun obj => setNestObj obj kv.2 (rowGet row kv.1)))
    (some [])

/-- Model of `DBConnection.resultToList`: one independent object per row. -/
def resultToList (mapping : List (String × String)) (rows : List (List (String × JSVal))) :
    Option (List (List (String × JSVal))) :=
  rows.foldr
    (fun row acc => (rowToObj mapping row).bind (fun obj => acc.map (fun l => obj :: l)))
    (some [])

/-! ## SQL script loader (DBConnection.loadAndSplitSQL / executeSQLFile)

The file-system read is external; the loader is modelled on the script
text itself.  The three regex passes are implemented as character
scanners with a fuel argument (one unit per character consumed) so that
every definition stays structurally recursive and computable; the
wrappers always supply sufficient fuel. -/

/-- Whether a closing `*/` occurs in the input. -/
def hasClose (cs : List Char) : Bool :=
  match cs with
  | '*' :: '/' :: _ => true
  | _ :: rest => hasClose rest
  | [] => false

/-- Drop everything through the first `*/`. -/
def dropClose (cs : List Char) : List Char :=
  match cs with
  | '*' :: '/' :: rest => rest
  | _ :: rest => dropClose rest
  | [] => []

/-- Model of `sql.replace(/\/\*[\s\S]*?\*\//g, "")`: each `/*` is removed together
with everything up to the nearest following `*/` (non-greedy); a `/*`
with no closing `*/` matches nothing and is kept verbatim. -/
def rbcAux (fuel : Nat) (cs : List Char) : List Char :=
  match fuel, cs with
  | 0, l => l
  | _ + 1, [] => []
  | fuel + 1, '/' :: '*' :: rest =>
    if hasClose rest then rbcAux fuel (dropClose rest)
    else '/' :: '*' :: rest
  | fuel + 1, c :: rest => c :: rbcAux fuel rest

def removeBlockComments (s : String) : String :=
  String.mk (rbcAux s.data.length s.data)

/-- Model of `sql.replace(/mm.*$/gm, "")` for a two-character line-comment marker
`m1 m2` (`--` or `//`): from each marker, drop up to (excluding) the next
line terminator. -/
def rlcAux (m1 m2 : Char) (fuel : Nat) (cs : List Char) : List Char :=
  match fuel, cs with
  | 0, l => l
  | _ + 1, [] => []
  | fuel + 1, a :: rest =>
    if a = m1 then
      match rest with
      | b :: _ =>
        if b = m2 then
          rlcAux m1 m2 fuel (rest.dropWhile (fun c => !(c = '\n' || c = '\r')))
        else a :: rlcAux m1 m2 fuel rest
      | [] => [a]
    else a :: rlcAux m1 m2 fuel rest

def removeLineComments (m1 m2 : Char) (s : String) : String :=
  String.mk (rlcAux m1 m2 s.data.length s.data)

/-- Model of `sql.split(/;\s*[\r\n]+|;\s*$/)`: a `;` followed by a whitespace run
containing a line break splits there (the separator extends through the
last line-break character of the run, as the greedy backtracking match
does); a `;` followed only by whitespace up to the end of the text also
splits, leaving a final empty piece; any other `;` stays inside its
fragment. -/
def splitStmtsAux (fuel : Nat) (acc : List Char) (cs : List Char) : List String :=
  match fuel, cs with
  | 0, l => [String.mk (acc.reverse ++ l)]
  | _ + 1, [] => [String.mk acc.reverse]
  | fuel + 1, ';' :: rest =>
    let ws := rest.takeWhile isJsSpace
    let tail := rest.drop ws.length
    if ws.any (fun c => c = '\n' || c = '\r') then
      let t := (ws.reverse.takeWhile (fun c => !(c = '\n' || c = '\r'))).length
      String.mk acc.reverse :: splitStmtsAux fuel [] (ws.drop (ws.length - t) ++ tail)
    else if tail.isEmpty then
      [String.mk acc.reverse, ""]
    else
      splitStmtsAux fuel (';' :: acc) rest
  | fuel + 1, c :: rest => splitStmtsAux fuel (c :: acc) rest

def splitStatements (s : String) : List String :=
  splitStmtsAux (s.data.length + 1) [] s.data

/-- Model of `DBConnection.loadAndSplitSQL` applied to the script text: strip
block comments, then `--` and `//` line comments, split on statement
terminators, trim each fragment and drop the empty ones. -/
def loadAndSplitSQL (script : String) : List String :=
  (((splitStatements
      (removeLineComments '/' '/'
        (removeLineComments '-' '-'
          (removeBlockComments script)))).map jsTrim).filter
    (fun s => !s.data.isEmpty))

/-- Model of `DBConnection.executeSQLFile` on the script text, with `exec`
deciding whether a statement executes successfully (`false` = it throws):
every statement is executed in order inside its own try/catch, a failure
only sets `hasError` and execution continues.  Returns `hasError`
together with the ordered trace of executed statements. -/
def executeSQLFile (exec : String → Bool) (script : String) : Bool × List String :=
  (loadAndSplitSQL script).foldl
    (fun st stmt => (if exec stmt then st.1 else true, st.2 ++ [stmt]))
    (false, [])

/-! ## Concrete fixtures used by witnesses and counterexamples -/

/-- Behaviour where the work throws error 1 and rollback itself throws
error 2 (commit and close succeed). -/
def bCex1 : ConnBehavior Nat Nat :=
  { beginTx := .ok (), work := .error 1, commit := .ok (),
    rollback := .error 2, close := .ok () }

/-- Behaviour where the work throws error 7 and every connection
operation succeeds. -/
def bWit1 : ConnBehavior Nat Nat :=
  { beginTx := .ok (), work := .error 7, commit := .ok (),
    rollback := .ok (), close := .ok () }

/-- A criteria whose base query is `select * from t`, with page size 25
and the given page number. -/
def cP (p : Int) : Criteria :=
  { sql := "select * from t", orderBy := "", params := [], page := p, rows := 25 }

/-- An adapter oracle reporting 5 matching rows; the fetch result echoes
the SQL it was asked to run, so the issued fetch text is observable. -/
def envFive : DBEnv :=
  { findResult := fun _ _ => some [("cc", JSVal.num 5)],
    listResult := fun sql _ => [JSVal.str sql] }

/-- An adapter oracle reporting 0 matching rows. -/
def envZero : DBEnv :=
  { findResult := fun _ _ => some [("cc", JSVal.num 0)],
    listResult := fun sql _ => [JSVal.str sql] }

/-- The script from the loader example. -/
def scriptC9 : String :=
  "-- c\nSELECT 1;\n/* block */\nSELECT 2"

/-! ## Theorems -/

/-- C1 counterexample: in an `executeInTx` invocation where the work
throws error 1 and the subsequent rollback itself throws error 2,
the error that propagates to the caller is the rollback error 2, not the
original error 1 — a rollback failure does mask the original error,
contrary to the claim. -/
theorem C1_counterexample :
    bCex1.work = Except.error 1 ∧
    DBOp.rollback ∈ (executeInTx bCex1).2 ∧
    (executeInTx bCex1).1 = Except.error 2 ∧
    (executeInTx bCex1).1 ≠ Except.error 1 := by
  refine ⟨rfl, by simp [executeInTx, bCex1], rfl, ?_⟩
  intro h
  simp [executeInTx, bCex1] at h

/-- C1 (amended): when the wrapped work of `executeInTx` raises an error,
rollback is always invoked, and the original error propagates to the
caller provided rollback and close themselves complete without raising;
if rollback (or close) raises, that later error replaces the original
one. -/
theorem C1_amended_rollback_then_original_error {ε α : Type} (b : ConnBehavior ε α)
    (e : ε) (hb : b.beginTx = Except.ok ()) (hw : b.work = Except.error e) :
    DBOp.rollback ∈ (executeInTx b).2 ∧
    (b.rollback = Except.ok () → b.close = Except.ok () →
      (executeInTx b).1 = Except.error e) := by
  unfold executeInTx
  rw [hb, hw]
  constructor
  · cases b.rollback <;> cases b.close <;> simp
  · intro h1 h2
    rw [h1, h2]

/-- Witness for C1 (amended) at a concrete behaviour: work throws error
7, rollback and close succeed; rollback is invoked and error 7 reaches
the caller. -/
theorem C1_amended_witness :
    DBOp.rollback ∈ (executeInTx bWit1).2 ∧ (executeInTx bWit1).1 = Except.error 7 :=
  ⟨(C1_amended_rollback_then_original_error bWit1 7 rfl rfl).1,
   (C1_amended_rollback_then_original_error bWit1 7 rfl rfl).2 rfl rfl⟩

/-- C2: for every behaviour of the five connection operations — success
or failure of the work, of commit, of rollback, and of close itself —
both `executeInTx` and `executeNonTx` invoke `close` exactly once, and it
is the final operation performed on the connection. -/
theorem C2_close_exactly_once_final {ε α : Type} (b : ConnBehavior ε α) :
    ((executeInTx b).2.count DBOp.close = 1 ∧
      (executeInTx b).2.getLast? = some DBOp.close) ∧
    ((executeNonTx b).2.count DBOp.close = 1 ∧
      (executeNonTx b).2.getLast? = some DBOp.close) := by
  obtain ⟨b1, b2, b3, b4, b5⟩ := b
  cases b1 <;> cases b2 <;> cases b3 <;> cases b4 <;> cases b5 <;>
    simp [executeInTx, executeNonTx]

/-- C3: for every pagination call, (1) a count of 0 yields
`{count: 0, hasMore: false, list: [], pages: 0}` and the fetch query is
never issued (only the count query appears in the trace); (2) a positive
count `n` yields `pages = floor((n-1)/pageSize)+1` and
`hasMore = (offset + pageSize < n)`, and whenever `offset >= n` the list
is empty and the fetch is skipped while count, pages and hasMore keep
those values.  The `0 < rows` hypothesis keeps the statement inside the
integral model: a page size of 0 makes the JS page-count quotient
infinite, which `Int` floor division does not represent. -/
theorem C3_pagination_boundaries (hook : Criteria → Criteria) (env : DBEnv)
    (c : Criteria) :
    (queryCount env (hook c).sql (hook c).params = some 0 →
      (paginationQuery hook env c).result =
        { count := some 0, hasMore := false, list := [], pages := some 0 } ∧
      (paginationQuery hook env c).queries = [countSQLOf (hook c).sql]) ∧
    (∀ n : Int, queryCount env (hook c).sql (hook c).params = some n → 0 < n →
      0 < (hook c).rows →
      (paginationQuery hook env c).result.count = some n ∧
      (paginationQuery hook env c).result.pages =
        some ((n - 1).fdiv (hook c).rows + 1) ∧
      (paginationQuery hook env c).result.hasMore =
        decide (((hook c).page - 1) * (hook c).rows + (hook c).rows < n) ∧
      (n ≤ ((hook c).page - 1) * (hook c).rows →
        (paginationQuery hook env c).result.list = [] ∧
        (paginationQuery hook env c).queries = [countSQLOf (hook c).sql])) := by
  constructor
  · intro h
    simp [paginationQuery, h]
  · intro n h hn _
    simp only [paginationQuery, h]
    rw [if_pos hn]
    by_cases hoff : ((hook c).page - 1) * (hook c).rows < n
    · rw [if_pos hoff]
      refine ⟨rfl, rfl, rfl, fun hle => absurd hoff (by omega)⟩
    · rw [if_neg hoff]
      exact ⟨rfl, rfl, rfl, fun _ => ⟨rfl, rfl⟩⟩

/-- Witness for C3 at concrete oracles: with 5 matching rows, page 1 and
page size 25, the result carries count 5, a single page and no further
pages; with 0 matching rows the result is the all-empty one. -/
theorem C3_witness :
    (paginationQuery buildDynamicQuery envFive (cP 1)).result.count = some 5 ∧
    (paginationQuery buildDynamicQuery envFive (cP 1)).result.pages = some 1 ∧
    (paginationQuery buildDynamicQuery envFive (cP 1)).result.hasMore = false ∧
    (paginationQuery buildDynamicQuery envZero (cP 1)).result =
      { count := some 0, hasMore := false, list := [], pages := some 0 } := by
  have h5 := (C3_pagination_boundaries buildDynamicQuery envFive (cP 1)).2 5
    (by decide) (by decide) (by decide)
  have h0 := (C3_pagination_boundaries buildDynamicQuery envZero (cP 1)).1
    (by decide)
  exact ⟨h5.1, h5.2.1.trans (by decide), h5.2.2.1.trans (by decide), h0.1⟩

/-- C4 counterexample: the criteria constructor accepts page number 0
unchanged, and `paginationQuery` on page 0 (page size 25, 5 matching
rows) issues a fetch with the negative offset -25 and reports
`hasMore = true`, while the same call on page 1 reports
`hasMore = false` — a page number below 1 is not clamped and does not
behave as a request for page 1. -/
theorem C4_counterexample :
    (mkCriteria (.obj [("page", JSVal.num 0)])).1 = some 0 ∧
    (paginationQuery buildDynamicQuery envFive (cP 0)).queries =
      ["select count(*) as cc from (select * from t) a",
       "select * from t   limit 25 offset -25 "] ∧
    (paginationQuery buildDynamicQuery envFive (cP 0)).result.hasMore = true ∧
    (paginationQuery buildDynamicQuery envFive (cP 1)).result.hasMore = false := by
  exact ⟨rfl, rfl, rfl, rfl⟩

/-- C4 (amended): `paginationQuery` performs no clamping of the page
number: for every page number (including values below 1) the offset used
in the LIMIT/OFFSET fragment of the fetch query and in the `hasMore` formula
is exactly `(page - 1) * rows`, so page numbers below 1 produce negative
offsets and need not behave like page 1.  (The clamp the spec mentions
exists only on the separate quick-search path, not in this protocol.) -/
theorem C4_amended_no_clamping (hook : Criteria → Criteria) (env : DBEnv)
    (c : Criteria) (n : Int)
    (h : queryCount env (hook c).sql (hook c).params = some n) (hn : 0 < n) :
    (paginationQuery hook env c).result.hasMore =
      decide (((hook c).page - 1) * (hook c).rows + (hook c).rows < n) ∧
    (((hook c).page - 1) * (hook c).rows < n →
      (paginationQuery hook env c).queries =
        [countSQLOf (hook c).sql,
         (hook c).sql ++ " " ++ (hook c).orderBy ++ " " ++
           getRowSetLimitClause (hook c).rows (((hook c).page - 1) * (hook c).rows) ++
           " "]) := by
  simp only [paginationQuery, h]
  rw [if_pos hn]
  by_cases hoff : ((hook c).page - 1) * (hook c).rows < n
  · rw [if_pos hoff]
    exact ⟨rfl, fun _ => rfl⟩
  · rw [if_neg hoff]
    exact ⟨rfl, fun hlt => absurd hlt hoff⟩

/-- Witness for C4 (amended) at page 0 with 5 matching rows: the fetch is
issued with offset -25 and `hasMore` uses the negative offset. -/
theorem C4_amended_witness :
    (paginationQuery buildDynamicQuery envFive (cP 0)).result.hasMore =
      decide ((((cP 0).page - 1) * (cP 0).rows + (cP 0).rows : Int) < 5) ∧
    (paginationQuery buildDynamicQuery envFive (cP 0)).queries =
      [countSQLOf (cP 0).sql,
       (cP 0).sql ++ " " ++ (cP 0).orderBy ++ " " ++
         getRowSetLimitClause (cP 0).rows (((cP 0).page - 1) * (cP 0).rows) ++ " "] :=
  ⟨(C4_amended_no_clamping buildDynamicQuery envFive (cP 0) 5 (by decide)
      (by decide)).1,
   (C4_amended_no_clamping buildDynamicQuery envFive (cP 0) 5 (by decide)
      (by decide)).2 (by decide)⟩

/-- C5: the dynamic-query hook is applied exactly once per pagination
call — the criteria state after the call is exactly one application of
the hook — and with the base-class hook (whose body is empty) a second
`paginationQuery` on the same criteria against unchanged data returns an
identical outcome: same count, pages, list, hasMore, state and issued
queries. -/
theorem C5_pagination_idempotent :
    (∀ (hook : Criteria → Criteria) (env : DBEnv) (c : Criteria),
      (paginationQuery hook env c).crit = hook c) ∧
    (∀ (env : DBEnv) (c : Criteria),
      paginationQuery buildDynamicQuery env
        ((paginationQuery buildDynamicQuery env c).crit) =
      paginationQuery buildDynamicQuery env c) := by
  have hcrit : ∀ (hook : Criteria → Criteria) (env : DBEnv) (c : Criteria),
      (paginationQuery hook env c).crit = hook c := by
    intro hook env c
    rcases hq : queryCount env (hook c).sql (hook c).params with _ | n
    · simp only [paginationQuery, hq]
    · simp only [paginationQuery, hq]
      by_cases hn : 0 < n
      · rw [if_pos hn]
        by_cases hoff : ((hook c).page - 1) * (hook c).rows < n
        · rw [if_pos hoff]
        · rw [if_neg hoff]
      · rw [if_neg hn]
  refine ⟨hcrit, fun env c => ?_⟩
  rw [hcrit]
  simp only [buildDynamicQuery]

/-- C6: for every non-empty text (per the emptiness check of the source)
containing the wildcard marker `*`, `buildStarCriteria` appends a LIKE
fragment with the next placeholder index and binds the text transformed
by first escaping every pre-existing `%` (`escapePercentage`) and then
converting every `*` to `%` (`toWildSQL`), in that order; for every
non-empty text without a `*` it appends an equality fragment binding the
text unchanged. -/
theorem C6_star_criteria (text field : String) (c : Criteria)
    (hne : isNotEmpty (.str text) = true) :
    (includeStar text = true →
      buildStarCriteria text field c =
        ({ c with
            sql := c.sql ++ " and " ++ field ++ " like $" ++
              toString (c.params.length + 1),
            params := c.params ++ [.str (toWildSQL (escapePercentage text))] },
         c.params.length + 2)) ∧
    (includeStar text = false →
      buildStarCriteria text field c =
        ({ c with
            sql := c.sql ++ " and " ++ field ++ " = $" ++
              toString (c.params.length + 1),
            params := c.params ++ [.str text] },
         c.params.length + 2)) := by
  constructor <;> intro hstar <;>
    simp [buildStarCriteria, hne, hstar, replaceWildStar, toWildSQL, escapePercentage]

/-- Witness for C6 on the text `a*b%` (which is non-empty and contains
the marker): the bound parameter is `a%b\%` — the pre-existing `%` is
escaped first, then the `*` becomes `%`. -/
theorem C6_witness :
    isNotEmpty (.str "a*b%") = true ∧ includeStar "a*b%" = true ∧
    toWildSQL (escapePercentage "a*b%") = "a%b\\%" ∧
    buildStarCriteria "a*b%" "f" (cP 1) =
      ({ (cP 1) with
          sql := (cP 1).sql ++ " and " ++ "f" ++ " like $" ++
            toString ((cP 1).params.length + 1),
          params := (cP 1).params ++ [.str (toWildSQL (escapePercentage "a*b%"))] },
       (cP 1).params.length + 2) :=
  ⟨by decide, by decide, by decide,
   (C6_star_criteria "a*b%" "f" (cP 1) (by decide)).1 (by decide)⟩

/-- Splitting a clause list across an append: the second part is rendered
with the parameter count advanced by the length of the first part. -/
theorem renderClauses_append (n : Nat) (xs ys : List (String × String × JSVal)) :
    renderClauses n (xs ++ ys) =
      renderClauses n xs ++ renderClauses (n + xs.length) ys := by
  induction xs generalizing n with
  | nil => simp [renderClauses, String.empty_append]
  | cons e r ih =>
    rw [List.cons_append]
    simp only [renderClauses, List.length_cons]
    rw [ih]
    have hidx : n + 1 + r.length = n + (r.length + 1) := by omega
    rw [hidx]
    simp [String.append_assoc]

/-- One builder call appends exactly the clauses of `callClauses` —
placeholders numbered consecutively from the current parameter count
plus one — and pushes exactly their values, in the same order. -/
theorem applyCall_clauses (k : BuilderCall) (c : Criteria) :
    applyCall k c =
      { c with
          sql := c.sql ++ renderClauses c.params.length (callClauses k),
          params := c.params ++ (callClauses k).map (fun e => e.2.2) } := by
  cases k with
  | crit v f =>
    by_cases hv : isNotEmpty v <;>
      simp [applyCall, buildCriteria, callClauses, renderClauses, hv,
        String.append_assoc, String.append_empty]
  | star t f =>
    by_cases ht : isNotEmpty (.str t)
    · by_cases hs : includeStar t <;>
        simp [applyCall, buildStarCriteria, callClauses, renderClauses, ht, hs,
          String.append_assoc, String.append_empty]
    · simp [applyCall, buildStarCriteria, callClauses, renderClauses, ht,
        String.append_empty]
  | range a b f =>
    by_cases ha : isNotEmpty a <;> by_cases hb : isNotEmpty b <;>
      simp [applyCall, buildRangeCriteria, callClauses, renderClauses, ha, hb,
        String.append_assoc, String.append_empty]

/-- C7: after any sequence of builder calls (`buildCriteria`,
`buildStarCriteria`, `buildRangeCriteria`), the accumulated state is the
base state extended with one clause and one pushed value per non-empty
bound, where the k-th appended value (1-based over all pushes) carries
placeholder index `initial parameter count + k` — so the Nth bound
parameter corresponds to the Nth placeholder, in left-to-right insertion
order, with indices recomputed from the current parameter count on every
call; empty inputs contribute nothing, and every operation is a total
function (the source operations contain no throwing constructs). -/
theorem C7_param_alignment (ks : List BuilderCall) (c : Criteria) :
    applyCalls ks c =
      { c with
          sql := c.sql ++ renderClauses c.params.length (callsClauses ks),
          params := c.params ++ (callsClauses ks).map (fun e => e.2.2) } := by
  induction ks generalizing c with
  | nil =>
    simp [applyCalls, callsClauses, renderClauses, String.append_empty]
  | cons k r ih =>
    have h1 : applyCalls (k :: r) c = applyCalls r (applyCall k c) := rfl
    rw [h1, ih, applyCall_clauses]
    simp only [callsClauses, renderClauses_append, List.map_append,
      List.length_append, List.length_map, List.append_assoc,
      String.append_assoc]

/-- C8: materializing the row `{first_name: "A", addr_city: "X"}` against
the mapping `{first_name → firstName, addr_city → address.city}` yields
`{firstName: "A", address: {city: "X"}}`; the camelCase rewrite maps
`first_name` to `firstName`; and a null (or undefined) column value makes
`setNestObj` a no-op, so the corresponding attribute is absent from the
produced object rather than explicitly null — materializing the same row
with `addr_city` null yields `{firstName: "A"}` with no `address` key. -/
theorem C8_materialize_nested :
    rowToObj [("first_name", "firstName"), ("addr_city", "address.city")]
        [("first_name", JSVal.str "A"), ("addr_city", JSVal.str "X")] =
      some [("firstName", JSVal.str "A"),
            ("address", JSVal.obj [("city", JSVal.str "X")])] ∧
    toCamel "first_name" = "firstName" ∧
    (∀ (obj : List (String × JSVal)) (field : String),
      setNestObj obj field JSVal.null = some obj) ∧
    (∀ (obj : List (String × JSVal)) (field : String),
      setNestObj obj field JSVal.undef = some obj) ∧
    rowToObj [("first_name", "firstName"), ("addr_city", "address.city")]
        [("first_name", JSVal.str "A"), ("addr_city", JSVal.null)] =
      some [("firstName", JSVal.str "A")] ∧
    jsGet [("firstName", JSVal.str "A")] "address" = none :=
  ⟨rfl, rfl, fun _ _ => rfl, fun _ _ => rfl, rfl, rfl⟩

/-- Folding the statement loop of `executeSQLFile` from any starting
state: every statement of the list lands in the trace, and the error
flag is the disjunction of the per-statement failures. -/
theorem executeSQLFile_foldl (exec : String → Bool) (l : List String)
    (b : Bool) (acc : List String) :
    l.foldl (fun st stmt => (if exec stmt then st.1 else true, st.2 ++ [stmt]))
        (b, acc) =
      (b || l.any (fun s => !exec s), acc ++ l) := by
  induction l generalizing b acc with
  | nil => simp
  | cons s r ih =>
    simp only [List.foldl_cons, List.any_cons]
    rw [ih]
    by_cases h : exec s <;> simp [h]

/-- C9: the script `"-- c\nSELECT 1;\n/* block */\nSELECT 2"` splits into
exactly the two trimmed statements `"SELECT 1"` and `"SELECT 2"`; and for
every script and every statement outcome, `executeSQLFile` executes every
split statement in order — a failing statement never prevents the
following ones from executing — and reports failure exactly when at
least one statement failed. -/
theorem C9_script_split_and_partial_failure :
    loadAndSplitSQL scriptC9 = ["SELECT 1", "SELECT 2"] ∧
    (∀ (exec : String → Bool) (script : String),
      (executeSQLFile exec script).2 = loadAndSplitSQL script ∧
      (executeSQLFile exec script).1 =
        (loadAndSplitSQL script).any (fun s => !exec s)) := by
  refine ⟨by decide, fun exec script => ?_⟩
  unfold executeSQLFile
  rw [executeSQLFile_foldl]
  simp

/-- C10 counterexample: constructing a criteria with `page: ""` — a
string that does not parse as a number (`parseInt("")` is NaN) — does not
substitute the default page 1: the JS numeric test `isNaN("")` accepts
the empty string (its `Number` value is 0), so `parseInt` runs and the
stored page is NaN, not 1. -/
theorem C10_counterexample :
    mkCriteria (.obj [("page", JSVal.str ""), ("rows", JSVal.num 10)]) =
      (none, some 10) ∧
    jsNumericString "" = true ∧ jsParseInt "" = none ∧
    (none : Option Int) ≠ some 1 :=
  ⟨rfl, rfl, rfl, by simp⟩

/-- C10 (amended): the constructor substitutes the defaults (page 1,
rows 25) for a missing criteria object, for null/undefined entries and
for strings rejected by the JS numeric test `isNaN`; strings accepted by
the test are handed to `parseInt`, which for strings such as `""` (whose
`Number` value is 0 but which have no leading digits) yields NaN rather
than the default; numeric values, including 0, negative numbers and NaN
itself, pass through unchanged.  Nothing raises. -/
theorem C10_amended_parse_defaults (d : Int) (n : Int) (t : String) :
    parseNumber (.num n) d = some n ∧
    parseNumber .null d = some d ∧
    parseNumber .undef d = some d ∧
    (jsNumericString t = false → parseNumber (.str t) d = some d) ∧
    (jsNumericString t = true → parseNumber (.str t) d = jsParseInt t) ∧
    mkCriteria .undef = (some 1, some 25) ∧
    mkCriteria .null = (some 1, some 25) := by
  refine ⟨rfl, rfl, rfl, fun h => ?_, fun h => ?_, rfl, rfl⟩
  · simp [parseNumber, h]
  · simp [parseNumber, h]

/-- Witness for C10 (amended): `"abc"` fails the numeric test and falls
back to the default; `"12"` passes it and parses; the number -3 passes
through unchanged. -/
theorem C10_amended_witness :
    jsNumericString "abc" = false ∧ jsNumericString "12" = true ∧
    parseNumber (.str "abc") 1 = some 1 ∧
    parseNumber (.str "12") 25 = jsParseInt "12" ∧
    parseNumber (.num (-3)) 1 = some (-3) :=
  ⟨by decide, by decide,
   (C10_amended_parse_defaults 1 0 "abc").2.2.2.1 (by decide),
   (C10_amended_parse_defaults 25 0 "12").2.2.2.2.1 (by decide),
   (C10_amended_parse_defaults 1 (-3) "x").1⟩

end NodeCommon
